import Mathlib

/-!
Shallow embedding of the flusec-cloud ingestion service (src/unnamed/part_000,
an Express + MongoDB server in JavaScript) and proofs about its payload
normalization and ingestion pipeline.

Modelling conventions:
* JavaScript values are the inductive `JSVal` (mutual with `JSList` for array
  contents and `JSFields` for object fields).
* JavaScript numbers are `JSNum`: either `nan` or a rational `fin q`.  The
  claims under study only need equality, order, truthiness and addition of
  numbers, none of which distinguishes rationals from binary floats on the
  inputs involved; plus or minus Infinity is not modelled.
* `new Date().toISOString()` and `new Date()` are ambient time; they enter the
  embedding as explicit string parameters `now` and `receivedAt`.
* The fetch to the identity service is modelled by an `IdServiceResponse`
  parameter describing what the service answered for the request token.
* MongoDB insertMany is modelled as always succeeding and assigning the
  identifier `assignId i` to the i-th inserted document (insertMany reports
  insertedIds keyed by position; Object.values enumerates them in that order).
  Storage faults (500 path) are outside the claims under study.
-/

/-- A JavaScript number: NaN or a finite value (modelled as a rational). -/
inductive JSNum where
  | nan
  | fin (q : ℚ)
deriving DecidableEq

mutual
/-- A JavaScript (JSON-like) value. -/
inductive JSVal where
  | undefined
  | null
  | bool (b : Bool)
  | num (n : JSNum)
  | str (s : String)
  | arr (xs : JSList)
  | obj (fs : JSFields)

/-- Contents of a JavaScript array. -/
inductive JSList where
  | nil
  | cons (hd : JSVal) (tl : JSList)

/-- Fields of a JavaScript object, in declaration order. -/
inductive JSFields where
  | nil
  | cons (key : String) (val : JSVal) (tl : JSFields)
end

/-- View of a JavaScript array as a Lean list. -/
def JSList.toList : JSList → List JSVal
  | .nil => []
  | .cons v tl => v :: tl.toList

/-- Truthiness of a JavaScript number: 0 and NaN are falsy. -/
def jsNumTruthy : JSNum → Bool
  | .nan => false
  | .fin q => q != 0

/-- JavaScript truthiness. -/
def truthy : JSVal → Bool
  | .undefined => false
  | .null => false
  | .bool b => b
  | .num n => jsNumTruthy n
  | .str s => s != ""
  | .arr _ => true
  | .obj _ => true

/-- The JavaScript short-circuit operator a || b. -/
def jsOr (a b : JSVal) : JSVal := if truthy a then a else b

/-- Array.isArray. -/
def isArray : JSVal → Bool
  | .arr _ => true
  | _ => false

/-- typeof v === "number". -/
def isNumber : JSVal → Bool
  | .num _ => true
  | _ => false

/-- The elements of v when v is an array, else the empty list; used to embed
the pattern Array.isArray(x) ? x : [] together with `isArray`. -/
def asArray : JSVal → List JSVal
  | .arr xs => xs.toList
  | _ => []

/-- Lookup of an object field list, later declarations winning as in
JavaScript object literals and JSON parsing. -/
def JSFields.lookupLast (key : String) : JSFields → Option JSVal
  | .nil => none
  | .cons k v tl =>
    match lookupLast key tl with
    | some w => some w
    | none => if k = key then some v else none

/-- JavaScript property access v.key (also v?.key: both agree on every value
the server dereferences, since the code guards the only possibly-null
receiver with a truthiness test).  Access on primitives yields undefined. -/
def getField (v : JSVal) (key : String) : JSVal :=
  match v with
  | .obj fs => (fs.lookupLast key).getD .undefined
  | _ => .undefined

/-- String() of a JavaScript number.  Integral values print as in JavaScript;
for non-integral values JavaScript uses shortest round-trip decimal notation,
which this embedding does not reproduce (no claim stringifies a non-integral
number) - it falls back to the rational printer. -/
def jsNumToString : JSNum → String
  | .nan => "NaN"
  | .fin q => if q.den = 1 then toString q.num else toString q

mutual
/-- String(v), the JavaScript string conversion. -/
def jsToString : JSVal → String
  | .undefined => "undefined"
  | .null => "null"
  | .bool b => cond b "true" "false"
  | .num n => jsNumToString n
  | .str s => s
  | .arr xs => jsArrBody xs
  | .obj _ => "[object Object]"
termination_by structural v => v

/-- String conversion of array contents: elements joined by commas, with
null and undefined elements printing as empty (Array.prototype.toString). -/
def jsArrBody : JSList → String
  | .nil => ""
  | .cons v tl =>
    (match v with
     | .undefined => ""
     | .null => ""
     | w => jsToString w) ++
    (match tl with
     | .nil => ""
     | .cons _ _ => "," ++ jsArrBody tl)
termination_by structural xs => xs
end

/-- Embeds the pattern String(x || "") used by the normalizer for every
declared string field. -/
def strOrEmpty (v : JSVal) : String := jsToString (jsOr v (.str ""))

/-- s.startsWith(p) on strings, computed on the character lists. -/
def charsLead : List Char → List Char → Bool
  | [], _ => true
  | _ :: _, [] => false
  | c :: cs, d :: ds => c == d && charsLead cs ds

/-- JavaScript s.startsWith(p). -/
def jsStartsWith (s p : String) : Bool := charsLead p.data s.data

/-- JavaScript s.slice(n) for n at least 0 (the code only uses slice(7)).
JavaScript slices by UTF-16 code units; the strings involved here are ASCII,
where code units and characters coincide. -/
def jsSlice (s : String) (n : Nat) : String := ⟨s.data.drop n⟩

/-- JavaScript s.trim(): strip leading and trailing whitespace. -/
def jsTrim (s : String) : String :=
  ⟨((s.data.dropWhile Char.isWhitespace).reverse.dropWhile Char.isWhitespace).reverse⟩

/-- JavaScript + on two numbers. -/
def jsAdd : JSNum → JSNum → JSNum
  | .nan, _ => .nan
  | .fin _, .nan => .nan
  | .fin a, .fin b => .fin (a + b)

/-- Embeds Number(x || 0) for x already a number (the batch assembler applies
it to findingsCount): NaN and 0 become 0, every other number is unchanged
(Number is the identity on numbers). -/
def numOrZero (n : JSNum) : JSNum :=
  if jsNumTruthy n then n else .fin 0

/-- The canonical per-workspace record produced by the normalizer
(the WorkspaceBatch of the specification). -/
structure Workspace where
  workspaceId : String
  workspaceName : String
  extensionVersion : String
  generatedAt : String
  findings : List JSVal
  findingsCount : JSNum
  findingsFile : String

/-- Embeds the findings extraction shared by both shapes
(Array.isArray(x.findings) ? x.findings : []). -/
def extractFindings (v : JSVal) : List JSVal :=
  if isArray (getField v "findings") then asArray (getField v "findings") else []

/-- Embeds the findingsCount extraction shared by both shapes: the caller
value when it is of number type, else the length of the findings array, else
0 (typeof x.findingsCount === "number" ? x.findingsCount :
(Array.isArray(x.findings) ? x.findings.length : 0)). -/
def extractFindingsCount (v : JSVal) : JSNum :=
  match getField v "findingsCount" with
  | .num n => n
  | _ =>
    if isArray (getField v "findings") then .fin (asArray (getField v "findings")).length
    else .fin 0

/-- Field extraction for one element w of body.workspaces
(normalizeToWorkspaces, multi-workspace branch, source lines 62-71).
Note the fallback order of the source: body?.extensionVersion ||
w?.extensionVersion || "" and body?.generatedAt || w?.generatedAt ||
new Date().toISOString() - the request-level value is tried first. -/
def normalizeWs (now : String) (body w : JSVal) : Workspace :=
  { workspaceId := strOrEmpty (getField w "workspaceId")
    workspaceName := strOrEmpty (getField w "workspaceName")
    extensionVersion :=
      jsToString (jsOr (getField body "extensionVersion")
        (jsOr (getField w "extensionVersion") (.str "")))
    generatedAt :=
      jsToString (jsOr (getField body "generatedAt")
        (jsOr (getField w "generatedAt") (.str now)))
    findings := extractFindings w
    findingsCount := extractFindingsCount w
    findingsFile := strOrEmpty (getField w "findingsFile") }

/-- Field extraction for a flat legacy body
(normalizeToWorkspaces, flat branch, source lines 75-86). -/
def normalizeFlat (now : String) (body : JSVal) : Workspace :=
  { workspaceId := strOrEmpty (getField body "workspaceId")
    workspaceName := strOrEmpty (getField body "workspaceName")
    extensionVersion := strOrEmpty (getField body "extensionVersion")
    generatedAt := jsToString (jsOr (getField body "generatedAt") (.str now))
    findings := extractFindings body
    findingsCount := extractFindingsCount body
    findingsFile := strOrEmpty (getField body "findingsFile") }

/-- Embeds normalizeToWorkspaces (source lines 59-87): the multi-workspace
branch when body is truthy and body.workspaces is an array, the single flat
legacy record otherwise. -/
def normalizeToWorkspaces (now : String) (body : JSVal) : List Workspace :=
  if truthy body && isArray (getField body "workspaces") then
    (asArray (getField body "workspaces")).map (normalizeWs now body)
  else
    [normalizeFlat now body]

/-- What the identity service answered for the request token: a non-success
HTTP response with a best-effort body text, or a success with a JSON body. -/
inductive IdServiceResponse where
  | fail (status : Nat) (text : String)
  | respond (data : JSVal)

/-- Embeds githubUsernameFromToken (source lines 32-49): a thrown Error is
modelled as Except.error carrying the message.  On a non-success response it
throws; on success it throws when data?.login is falsy, else returns
data.login. -/
def githubUsernameFromToken : IdServiceResponse → Except String JSVal
  | .fail status text =>
    .error (jsTrim ("GitHub auth failed: HTTP " ++ toString status ++ " " ++ text))
  | .respond data =>
    if truthy (getField data "login") then .ok (getField data "login")
    else .error "GitHub response missing login"

/-- A document as assembled for persistence (source lines 119-129). -/
structure Doc where
  username : JSVal
  workspaceId : String
  workspaceName : String
  extensionVersion : String
  generatedAt : String
  receivedAt : String
  findingsFile : String
  findingsCount : JSNum
  findings : List JSVal

/-- Embeds the batch assembly of one document (source lines 119-129).  The
findings guard Array.isArray(w.findings) ? w.findings : [] is the identity
here because normalization always produces an array, which the embedding
carries as a Lean list. -/
def buildDoc (username : JSVal) (receivedAt : String) (w : Workspace) : Doc :=
  { username := username
    workspaceId := w.workspaceId
    workspaceName := w.workspaceName
    extensionVersion := w.extensionVersion
    generatedAt := w.generatedAt
    receivedAt := receivedAt
    findingsFile := w.findingsFile
    findingsCount := numOrZero w.findingsCount
    findings := w.findings }

/-- The incoming request: the authorization header value (undefined when the
header is absent) and the parsed JSON body. -/
structure Request where
  authorization : JSVal
  body : JSVal

/-- Observable outcome of one POST /v1/findings request: the HTTP response
fields plus which collaborators were invoked and what was persisted. -/
structure HandlerOutcome where
  status : Nat
  ok : Bool
  error : Option String
  username : Option JSVal
  batchesInserted : Option Nat
  totalFindings : Option JSNum
  batchIds : Option (List String)
  identityCalled : Bool
  normalizeCalled : Bool
  storageCalled : Bool
  insertedDocs : List Doc

/-- Embeds the bearer token extraction (source lines 104-105):
String(req.headers.authorization || ""), then slice(7).trim() when the
header starts with "Bearer ", else the empty string. -/
def tokenOf (req : Request) : String :=
  let auth := jsToString (jsOr req.authorization (.str ""))
  if jsStartsWith auth "Bearer " then jsTrim (jsSlice auth 7) else ""

/-- Embeds the POST /v1/findings handler (source lines 102-149).  A thrown
error inside the try block reaches the catch, which responds 500 with the
error message; the body of a res.json call without an explicit status is a
200 response.  The minimal validation !Array.isArray(...) || length === 0
reduces to the length test because the normalizer always returns an array. -/
def findingsHandler (idResp : IdServiceResponse) (now receivedAt : String)
    (assignId : Nat → String) (req : Request) : HandlerOutcome :=
  let token := tokenOf req
  if token = "" then
    { status := 401, ok := false, error := some "Missing Bearer token"
      username := none, batchesInserted := none, totalFindings := none, batchIds := none
      identityCalled := false, normalizeCalled := false, storageCalled := false
      insertedDocs := [] }
  else
    match githubUsernameFromToken idResp with
    | .error msg =>
      { status := 500, ok := false, error := some msg
        username := none, batchesInserted := none, totalFindings := none, batchIds := none
        identityCalled := true, normalizeCalled := false, storageCalled := false
        insertedDocs := [] }
    | .ok username =>
      let body := jsOr req.body (.obj .nil)
      let workspacePayloads := normalizeToWorkspaces now body
      if workspacePayloads.length = 0 then
        { status := 400, ok := false, error := some "Invalid payload"
          username := none, batchesInserted := none, totalFindings := none, batchIds := none
          identityCalled := true, normalizeCalled := true, storageCalled := false
          insertedDocs := [] }
      else
        let docs := workspacePayloads.map (buildDoc username receivedAt)
        let insertedIds := (List.range docs.length).map assignId
        let totalFindings := docs.foldl (fun s d => jsAdd s (numOrZero d.findingsCount)) (.fin 0)
        { status := 200, ok := true, error := none
          username := some username, batchesInserted := some docs.length
          totalFindings := some totalFindings, batchIds := some insertedIds
          identityCalled := true, normalizeCalled := true, storageCalled := true
          insertedDocs := docs }

/-- The finite value of a number (0 for NaN); persisted documents never carry
NaN, so on them this is exact. -/
def JSNum.toQ : JSNum → ℚ
  | .nan => 0
  | .fin q => q

/-! Concrete sample inputs for the witnesses and counterexamples. -/

/-- An identity-service success body: a JSON object with login "alice". -/
def loginAlice : JSVal := .obj (.cons "login" (.str "alice") .nil)

/-- The two workspace entries of end-to-end scenario B of the specification:
one workspace with one finding, one with none. -/
def wsMultiTwo : JSList :=
  .cons (.obj (.cons "workspaceName" (.str "w1")
          (.cons "findings" (.arr (.cons (.obj (.cons "a" (.num (.fin 1)) .nil)) .nil)) .nil)))
    (.cons (.obj (.cons "workspaceName" (.str "w2")
            (.cons "findings" (.arr .nil) .nil)))
      .nil)

/-- Scenario B body: a multi-workspace batch with the two entries above. -/
def bodyMultiTwo : JSVal := .obj (.cons "workspaces" (.arr wsMultiTwo) .nil)

/-- A workspace entry carrying its own extensionVersion and generatedAt. -/
def elemOwnVersion : JSVal :=
  .obj (.cons "extensionVersion" (.str "elem")
    (.cons "generatedAt" (.str "elemAt") .nil))

/-- A body giving request-level extensionVersion and generatedAt AND one
workspace entry carrying its own values for both fields. -/
def bodyPrecedence : JSVal :=
  .obj (.cons "extensionVersion" (.str "req")
    (.cons "generatedAt" (.str "reqAt")
      (.cons "workspaces" (.arr (.cons elemOwnVersion .nil)) .nil)))

/-- A flat body whose findingsCount is the number -1. -/
def bodyNegCount : JSVal := .obj (.cons "findingsCount" (.num (.fin (-1))) .nil)

/-- A flat body whose findingsCount is the number 0 (a falsy number). -/
def bodyZeroCount : JSVal := .obj (.cons "findingsCount" (.num (.fin 0)) .nil)

/-- A flat body whose workspaceId is the number 1 (a wrong-typed truthy
value for a declared string field). -/
def bodyNumId : JSVal := .obj (.cons "workspaceId" (.num (.fin 1)) .nil)

/-- A body with an empty workspaces array. -/
def bodyEmptyWs : JSVal := .obj (.cons "workspaces" (.arr .nil) .nil)

/-- Scenario A body: flat legacy, two findings, a workspace name. -/
def bodyFlatTwoFindings : JSVal :=
  .obj (.cons "findings"
      (.arr (.cons (.obj (.cons "a" (.num (.fin 1)) .nil))
        (.cons (.obj (.cons "b" (.num (.fin 2)) .nil)) .nil)))
    (.cons "workspaceName" (.str "w1") .nil))

/-- A body with one workspace entry carrying its own extensionVersion and
generatedAt but no request-level values. -/
def bodyElemOnly : JSVal := .obj (.cons "workspaces" (.arr (.cons elemOwnVersion .nil)) .nil)

/-! Helper lemmas about the embedding. -/

theorem jsToString_str (s : String) : jsToString (.str s) = s := rfl

theorem truthy_str_of_ne (s : String) (h : s ≠ "") : truthy (.str s) = true := by
  simp [truthy, h]

theorem jsOr_truthy (a b : JSVal) (h : truthy a = true) : jsOr a b = a := by
  simp [jsOr, h]

theorem jsOr_falsy (a b : JSVal) (h : truthy a = false) : jsOr a b = b := by
  simp [jsOr, h]

theorem strOrEmpty_str (s : String) : strOrEmpty (.str s) = s := by
  by_cases h : s = ""
  · subst h; rfl
  · rw [strOrEmpty, jsOr_truthy _ _ (truthy_str_of_ne s h), jsToString_str]

theorem strOrEmpty_falsy (v : JSVal) (h : truthy v = false) : strOrEmpty v = "" := by
  rw [strOrEmpty, jsOr_falsy _ _ h, jsToString_str]

theorem strOrEmpty_truthy (v : JSVal) (h : truthy v = true) : strOrEmpty v = jsToString v := by
  rw [strOrEmpty, jsOr_truthy _ _ h]

theorem truthy_of_getField_arr (body : JSVal) (key : String) (ws : JSList)
    (h : getField body key = .arr ws) : truthy body = true := by
  cases body <;> first | rfl | simp [getField] at h

theorem JSList.toList_eq_nil {xs : JSList} : xs.toList = [] ↔ xs = .nil := by
  cases xs <;> simp [JSList.toList]

/-- Shape dispatch, multi-workspace branch: when body.workspaces is an array
the normalizer maps each element through per-element extraction. -/
theorem normalize_multi (now : String) (body : JSVal) (ws : JSList)
    (h : getField body "workspaces" = .arr ws) :
    normalizeToWorkspaces now body = ws.toList.map (normalizeWs now body) := by
  have ht : truthy body = true := truthy_of_getField_arr body _ ws h
  simp [normalizeToWorkspaces, h, ht, isArray, asArray]

/-- Shape dispatch, flat legacy branch: when body.workspaces is not an array
the normalizer produces exactly the one flat record. -/
theorem normalize_flat (now : String) (body : JSVal)
    (h : isArray (getField body "workspaces") = false) :
    normalizeToWorkspaces now body = [normalizeFlat now body] := by
  simp [normalizeToWorkspaces, h]

theorem extractFindingsCount_num (v : JSVal) (n : JSNum)
    (h : getField v "findingsCount" = .num n) : extractFindingsCount v = n := by
  simp [extractFindingsCount, h]

theorem extractFindingsCount_nonnum (v : JSVal)
    (h : isNumber (getField v "findingsCount") = false) :
    extractFindingsCount v = .fin (extractFindings v).length := by
  cases hg : getField v "findingsCount" <;> rw [hg] at h <;> simp [isNumber] at h <;>
    by_cases ha : isArray (getField v "findings") <;>
      simp [extractFindingsCount, extractFindings, hg, ha]

theorem numOrZero_fin (q : ℚ) : numOrZero (.fin q) = .fin q := by
  by_cases h : q = 0 <;> simp [numOrZero, jsNumTruthy, h]

theorem numOrZero_exists_fin (n : JSNum) : ∃ q : ℚ, numOrZero n = .fin q := by
  cases n with
  | nan => exact ⟨0, rfl⟩
  | fin q => exact ⟨q, numOrZero_fin q⟩

theorem foldl_jsAdd_fin : ∀ (l : List Doc) (a : ℚ),
    (∀ d ∈ l, ∃ q : ℚ, d.findingsCount = JSNum.fin q) →
    l.foldl (fun s d => jsAdd s (numOrZero d.findingsCount)) (JSNum.fin a)
      = .fin (a + (l.map fun d => d.findingsCount.toQ).sum)
  | [], a, _ => by simp
  | d :: l, a, hf => by
    obtain ⟨q, hq⟩ := hf d (List.mem_cons_self d l)
    have ih := foldl_jsAdd_fin l (a + q) (fun x hx => hf x (List.mem_cons_of_mem _ hx))
    have hstep : jsAdd (JSNum.fin a) (numOrZero d.findingsCount) = JSNum.fin (a + q) := by
      rw [hq, numOrZero_fin]; rfl
    rw [List.foldl_cons, hstep, ih, List.map_cons, List.sum_cons]
    simp only [hq, JSNum.toQ]
    rw [add_assoc]

/-- Missing-token branch of the handler (source line 106). -/
theorem findingsHandler_noToken (idResp : IdServiceResponse) (now receivedAt : String)
    (assignId : Nat → String) (req : Request) (h : tokenOf req = "") :
    findingsHandler idResp now receivedAt assignId req =
      { status := 401, ok := false, error := some "Missing Bearer token"
        username := none, batchesInserted := none, totalFindings := none, batchIds := none
        identityCalled := false, normalizeCalled := false, storageCalled := false
        insertedDocs := [] } := by
  simp [findingsHandler, h]

/-- Auth-failure branch: the throw from githubUsernameFromToken reaches the
catch, which responds 500 (source lines 145-148). -/
theorem findingsHandler_authFail (idResp : IdServiceResponse) (now receivedAt : String)
    (assignId : Nat → String) (req : Request) (msg : String)
    (htok : tokenOf req ≠ "") (hg : githubUsernameFromToken idResp = .error msg) :
    findingsHandler idResp now receivedAt assignId req =
      { status := 500, ok := false, error := some msg
        username := none, batchesInserted := none, totalFindings := none, batchIds := none
        identityCalled := true, normalizeCalled := false, storageCalled := false
        insertedDocs := [] } := by
  simp [findingsHandler, htok, hg]

/-- Empty-batch branch of the handler (source lines 114-116). -/
theorem findingsHandler_emptyBatch (idResp : IdServiceResponse) (now receivedAt : String)
    (assignId : Nat → String) (req : Request) (u : JSVal)
    (htok : tokenOf req ≠ "") (hg : githubUsernameFromToken idResp = .ok u)
    (hlen : (normalizeToWorkspaces now (jsOr req.body (.obj .nil))).length = 0) :
    findingsHandler idResp now receivedAt assignId req =
      { status := 400, ok := false, error := some "Invalid payload"
        username := none, batchesInserted := none, totalFindings := none, batchIds := none
        identityCalled := true, normalizeCalled := true, storageCalled := false
        insertedDocs := [] } := by
  simp [findingsHandler, htok, hg, hlen]

/-- Success branch of the handler (source lines 119-144). -/
theorem findingsHandler_success (idResp : IdServiceResponse) (now receivedAt : String)
    (assignId : Nat → String) (req : Request) (u : JSVal)
    (htok : tokenOf req ≠ "") (hg : githubUsernameFromToken idResp = .ok u)
    (hlen : (normalizeToWorkspaces now (jsOr req.body (.obj .nil))).length ≠ 0) :
    findingsHandler idResp now receivedAt assignId req =
      { status := 200, ok := true, error := none
        username := some u
        batchesInserted :=
          some ((normalizeToWorkspaces now (jsOr req.body (.obj .nil))).map
            (buildDoc u receivedAt)).length
        totalFindings :=
          some (((normalizeToWorkspaces now (jsOr req.body (.obj .nil))).map
              (buildDoc u receivedAt)).foldl
            (fun s d => jsAdd s (numOrZero d.findingsCount)) (.fin 0))
        batchIds :=
          some ((List.range ((normalizeToWorkspaces now (jsOr req.body (.obj .nil))).map
              (buildDoc u receivedAt)).length).map assignId)
        identityCalled := true, normalizeCalled := true, storageCalled := true
        insertedDocs :=
          (normalizeToWorkspaces now (jsOr req.body (.obj .nil))).map (buildDoc u receivedAt) } := by
  simp [findingsHandler, htok, hg, hlen]

theorem extractFindings_not_arr (v : JSVal) (h : isArray (getField v "findings") = false) :
    extractFindings v = [] := by
  simp [extractFindings, h]

/-- C6: a body whose workspaces field is an array of N elements normalizes to
exactly the N per-element records, in order; every other body normalizes to
exactly the one flat legacy record extracted from its top-level fields. -/
theorem C6_thm (now : String) (body : JSVal) :
    (∀ ws : JSList, getField body "workspaces" = .arr ws →
      normalizeToWorkspaces now body = ws.toList.map (normalizeWs now body) ∧
      (normalizeToWorkspaces now body).length = ws.toList.length) ∧
    (isArray (getField body "workspaces") = false →
      normalizeToWorkspaces now body = [normalizeFlat now body] ∧
      (normalizeToWorkspaces now body).length = 1) := by
  constructor
  · intro ws h
    have hm := normalize_multi now body ws h
    exact ⟨hm, by rw [hm, List.length_map]⟩
  · intro h
    have hf := normalize_flat now body h
    exact ⟨hf, by rw [hf]; rfl⟩

/-- Witness for C6 at scenario B and at a string body. -/
theorem C6_thm_witness :
    (normalizeToWorkspaces "T" bodyMultiTwo
        = wsMultiTwo.toList.map (normalizeWs "T" bodyMultiTwo) ∧
      (normalizeToWorkspaces "T" bodyMultiTwo).length = wsMultiTwo.toList.length) ∧
    (normalizeToWorkspaces "T" (.str "legacy") = [normalizeFlat "T" (.str "legacy")] ∧
      (normalizeToWorkspaces "T" (.str "legacy")).length = 1) :=
  ⟨(C6_thm "T" bodyMultiTwo).1 wsMultiTwo rfl, (C6_thm "T" (.str "legacy")).2 rfl⟩

/-- C10: the normalized sequence is empty exactly when body.workspaces is an
empty array; any body without an array workspaces field yields one record. -/
theorem C10_thm (now : String) (body : JSVal) :
    (normalizeToWorkspaces now body = [] ↔ getField body "workspaces" = .arr .nil) ∧
    (isArray (getField body "workspaces") = false →
      (normalizeToWorkspaces now body).length = 1) := by
  constructor
  · constructor
    · intro h
      by_cases hc : isArray (getField body "workspaces") = true
      · cases hg : getField body "workspaces" with
        | arr xs =>
          rw [normalize_multi now body xs hg] at h
          have hnil : xs.toList = [] := by simpa using h
          rw [JSList.toList_eq_nil.mp hnil]
        | undefined => rw [hg] at hc; simp [isArray] at hc
        | null => rw [hg] at hc; simp [isArray] at hc
        | bool b => rw [hg] at hc; simp [isArray] at hc
        | num n => rw [hg] at hc; simp [isArray] at hc
        | str s => rw [hg] at hc; simp [isArray] at hc
        | obj fs => rw [hg] at hc; simp [isArray] at hc
      · rw [normalize_flat now body (by simpa using hc)] at h
        exact absurd h (by simp)
    · intro h
      rw [normalize_multi now body .nil h]
      rfl
  · intro h
    rw [normalize_flat now body h]
    rfl

/-- Witness for C10 at the empty-workspaces body. -/
theorem C10_thm_witness :
    ((normalizeToWorkspaces "T" bodyEmptyWs = []
        ↔ getField bodyEmptyWs "workspaces" = .arr .nil) ∧
      (isArray (getField bodyEmptyWs "workspaces") = false →
        (normalizeToWorkspaces "T" bodyEmptyWs).length = 1)) ∧
    ((normalizeToWorkspaces "T" (.str "legacy") = []
        ↔ getField (.str "legacy") "workspaces" = .arr .nil) ∧
      (isArray (getField (.str "legacy") "workspaces") = false →
        (normalizeToWorkspaces "T" (.str "legacy")).length = 1)) :=
  ⟨C10_thm "T" bodyEmptyWs, C10_thm "T" (.str "legacy")⟩

/-- C5: findingsCount is the caller value whenever that value has number type
(NaN included), else the length of the coerced findings list of the record,
and in particular 0 when findings is absent or not an array. -/
theorem C5_thm (now : String) (body w : JSVal) :
    (∀ n : JSNum, getField w "findingsCount" = .num n →
      (normalizeWs now body w).findingsCount = n ∧
      (normalizeFlat now w).findingsCount = n) ∧
    (isNumber (getField w "findingsCount") = false →
      ((normalizeWs now body w).findingsCount
          = .fin (normalizeWs now body w).findings.length ∧
        (normalizeFlat now w).findingsCount
          = .fin (normalizeFlat now w).findings.length) ∧
      (isArray (getField w "findings") = false →
        (normalizeWs now body w).findingsCount = .fin 0 ∧
        (normalizeFlat now w).findingsCount = .fin 0)) := by
  refine ⟨fun n h => ⟨extractFindingsCount_num w n h, extractFindingsCount_num w n h⟩,
    fun h => ⟨⟨extractFindingsCount_nonnum w h, extractFindingsCount_nonnum w h⟩,
      fun ha => ⟨?_, ?_⟩⟩⟩
  · show extractFindingsCount w = .fin 0
    rw [extractFindingsCount_nonnum w h, extractFindings_not_arr w ha]
    simp
  · show extractFindingsCount w = .fin 0
    rw [extractFindingsCount_nonnum w h, extractFindings_not_arr w ha]
    simp

/-- Witness for C5: a number-typed caller value is taken verbatim and an
absent one falls back to the findings length. -/
theorem C5_thm_witness :
    (normalizeFlat "T" bodyNegCount).findingsCount = .fin (-1) ∧
    (normalizeWs "T" (.obj .nil) bodyNegCount).findingsCount = .fin (-1) ∧
    (normalizeFlat "T" bodyFlatTwoFindings).findingsCount
      = .fin (normalizeFlat "T" bodyFlatTwoFindings).findings.length :=
  ⟨((C5_thm "T" (.obj .nil) bodyNegCount).1 (.fin (-1)) rfl).2,
   ((C5_thm "T" (.obj .nil) bodyNegCount).1 (.fin (-1)) rfl).1,
   (((C5_thm "T" (.obj .nil) bodyFlatTwoFindings).2 rfl).1).2⟩

/-- Refutation of C2: with a request-level extensionVersion "req" and
generatedAt "reqAt" and a workspace element supplying its own values "elem"
and "elemAt", the normalized record carries the request-level values, not
the values of the element. -/
theorem C2_counterexample :
    (normalizeToWorkspaces "T" bodyPrecedence).map Workspace.extensionVersion = ["req"] ∧
    (normalizeToWorkspaces "T" bodyPrecedence).map Workspace.generatedAt = ["reqAt"] ∧
    ("req" : String) ≠ "elem" ∧ ("reqAt" : String) ≠ "elemAt" :=
  ⟨by decide, by decide, by decide, by decide⟩

/-- C2 amended: for multi-workspace bodies each normalized record carries the
request-level extensionVersion and generatedAt whenever the body supplies a
non-empty string for them, and falls back to the values of the element only
when the body itself omits the field. -/
theorem C2_amended_thm (now : String) (body : JSVal) (ws : JSList) (w : JSVal)
    (hws : getField body "workspaces" = .arr ws) (hmem : w ∈ ws.toList) :
    normalizeWs now body w ∈ normalizeToWorkspaces now body ∧
    (∀ s, getField body "extensionVersion" = .str s → s ≠ "" →
      (normalizeWs now body w).extensionVersion = s) ∧
    (getField body "extensionVersion" = .undefined →
      ∀ t, getField w "extensionVersion" = .str t → t ≠ "" →
        (normalizeWs now body w).extensionVersion = t) ∧
    (∀ s, getField body "generatedAt" = .str s → s ≠ "" →
      (normalizeWs now body w).generatedAt = s) ∧
    (getField body "generatedAt" = .undefined →
      ∀ t, getField w "generatedAt" = .str t → t ≠ "" →
        (normalizeWs now body w).generatedAt = t) := by
  refine ⟨?_, ?_, ?_, ?_, ?_⟩
  · rw [normalize_multi now body ws hws]
    exact List.mem_map_of_mem _ hmem
  · intro s hb hs
    show jsToString (jsOr (getField body "extensionVersion") _) = s
    rw [hb, jsOr_truthy _ _ (truthy_str_of_ne s hs), jsToString_str]
  · intro hb t hw ht
    show jsToString (jsOr (getField body "extensionVersion") _) = t
    rw [hb, jsOr_falsy .undefined _ rfl, hw, jsOr_truthy _ _ (truthy_str_of_ne t ht), jsToString_str]
  · intro s hb hs
    show jsToString (jsOr (getField body "generatedAt") _) = s
    rw [hb, jsOr_truthy _ _ (truthy_str_of_ne s hs), jsToString_str]
  · intro hb t hw ht
    show jsToString (jsOr (getField body "generatedAt") _) = t
    rw [hb, jsOr_falsy .undefined _ rfl, hw, jsOr_truthy _ _ (truthy_str_of_ne t ht), jsToString_str]

/-- Witness for the amended C2: the request-level value wins when present,
the value of the element is used when the body omits the field. -/
theorem C2_amended_thm_witness :
    (normalizeWs "T" bodyPrecedence elemOwnVersion).extensionVersion = "req" ∧
    (normalizeWs "T" bodyElemOnly elemOwnVersion).extensionVersion = "elem" ∧
    (normalizeWs "T" bodyPrecedence elemOwnVersion).generatedAt = "reqAt" ∧
    (normalizeWs "T" bodyElemOnly elemOwnVersion).generatedAt = "elemAt" :=
  ⟨(C2_amended_thm "T" bodyPrecedence (.cons elemOwnVersion .nil) elemOwnVersion
      rfl (List.Mem.head _)).2.1 "req" rfl (by decide),
   (C2_amended_thm "T" bodyElemOnly (.cons elemOwnVersion .nil) elemOwnVersion
      rfl (List.Mem.head _)).2.2.1 rfl "elem" rfl (by decide),
   (C2_amended_thm "T" bodyPrecedence (.cons elemOwnVersion .nil) elemOwnVersion
      rfl (List.Mem.head _)).2.2.2.1 "reqAt" rfl (by decide),
   (C2_amended_thm "T" bodyElemOnly (.cons elemOwnVersion .nil) elemOwnVersion
      rfl (List.Mem.head _)).2.2.2.2 rfl "elemAt" rfl (by decide)⟩

/-- Refutation of C4: a wrong-typed (number) workspaceId is coerced through
String() to "1", not replaced by the empty string. -/
theorem C4_counterexample :
    (normalizeFlat "T" bodyNumId).workspaceId = "1" ∧ ("1" : String) ≠ "" :=
  ⟨by decide, by decide⟩

/-- C4 amended: a declared string field equals the string the caller
supplied; it is the empty string when the field is missing or its value is
falsy; and a truthy non-string value is coerced through String(), not
replaced by the empty string. -/
theorem C4_amended_thm (now : String) (body w : JSVal) :
    ((∀ s, getField w "workspaceId" = .str s →
        (normalizeWs now body w).workspaceId = s ∧ (normalizeFlat now w).workspaceId = s) ∧
      (truthy (getField w "workspaceId") = false →
        (normalizeWs now body w).workspaceId = "" ∧ (normalizeFlat now w).workspaceId = "") ∧
      (truthy (getField w "workspaceId") = true →
        (normalizeWs now body w).workspaceId = jsToString (getField w "workspaceId") ∧
        (normalizeFlat now w).workspaceId = jsToString (getField w "workspaceId"))) ∧
    ((∀ s, getField w "workspaceName" = .str s →
        (normalizeWs now body w).workspaceName = s ∧ (normalizeFlat now w).workspaceName = s) ∧
      (truthy (getField w "workspaceName") = false →
        (normalizeWs now body w).workspaceName = "" ∧ (normalizeFlat now w).workspaceName = "") ∧
      (truthy (getField w "workspaceName") = true →
        (normalizeWs now body w).workspaceName = jsToString (getField w "workspaceName") ∧
        (normalizeFlat now w).workspaceName = jsToString (getField w "workspaceName"))) ∧
    ((∀ s, getField w "findingsFile" = .str s →
        (normalizeWs now body w).findingsFile = s ∧ (normalizeFlat now w).findingsFile = s) ∧
      (truthy (getField w "findingsFile") = false →
        (normalizeWs now body w).findingsFile = "" ∧ (normalizeFlat now w).findingsFile = "") ∧
      (truthy (getField w "findingsFile") = true →
        (normalizeWs now body w).findingsFile = jsToString (getField w "findingsFile") ∧
        (normalizeFlat now w).findingsFile = jsToString (getField w "findingsFile"))) ∧
    ((∀ s, getField w "extensionVersion" = .str s →
        (normalizeFlat now w).extensionVersion = s) ∧
      (truthy (getField w "extensionVersion") = false →
        (normalizeFlat now w).extensionVersion = "") ∧
      (truthy (getField w "extensionVersion") = true →
        (normalizeFlat now w).extensionVersion = jsToString (getField w "extensionVersion"))) := by
  refine ⟨⟨fun s h => ⟨?_, ?_⟩, fun h => ⟨?_, ?_⟩, fun h => ⟨?_, ?_⟩⟩,
          ⟨fun s h => ⟨?_, ?_⟩, fun h => ⟨?_, ?_⟩, fun h => ⟨?_, ?_⟩⟩,
          ⟨fun s h => ⟨?_, ?_⟩, fun h => ⟨?_, ?_⟩, fun h => ⟨?_, ?_⟩⟩,
          ⟨fun s h => ?_, fun h => ?_, fun h => ?_⟩⟩ <;>
    simp only [normalizeWs, normalizeFlat] <;>
    first
      | (rw [h]; exact strOrEmpty_str _)
      | exact strOrEmpty_falsy _ h
      | exact strOrEmpty_truthy _ h

/-- Witness for the amended C4: a supplied string is kept, a missing field
becomes empty, a truthy number is String()-coerced. -/
theorem C4_amended_thm_witness :
    (normalizeFlat "T" bodyFlatTwoFindings).workspaceName = "w1" ∧
    (normalizeFlat "T" bodyFlatTwoFindings).workspaceId = "" ∧
    (normalizeFlat "T" bodyNumId).workspaceId = jsToString (.num (.fin 1)) :=
  ⟨((C4_amended_thm "T" (.obj .nil) bodyFlatTwoFindings).2.1.1 "w1" rfl).2,
   ((C4_amended_thm "T" (.obj .nil) bodyFlatTwoFindings).1.2.1 rfl).2,
   ((C4_amended_thm "T" (.obj .nil) bodyNumId).1.2.2 (by decide)).2⟩

/-- Refutation of C3: the caller-supplied number -1 flows unchanged into the
normalized record and into the persisted document, so the persisted
findingsCount is a negative number. -/
theorem C3_counterexample :
    (normalizeFlat "T" bodyNegCount).findingsCount = .fin (-1) ∧
    ((findingsHandler (.respond loginAlice) "T" "R" (fun i => toString i)
        { authorization := .str "Bearer tok", body := bodyNegCount }).insertedDocs.map
          Doc.findingsCount = [.fin (-1)]) ∧
    ((-1 : ℚ) < 0) :=
  ⟨by decide, by decide, by norm_num⟩

/-- C3 amended: the normalized and persisted findingsCount is a non-negative
integer whenever the caller does not supply a number-typed findingsCount; a
number-typed caller value is passed through unchanged to the normalized
record (so negative or fractional values survive) and, unless it is 0 or NaN
(which persist as 0), to the persisted document as well. -/
theorem C3_amended_thm (now receivedAt : String) (u body w : JSVal) :
    (isNumber (getField w "findingsCount") = false →
      (∃ k : ℕ, (normalizeWs now body w).findingsCount = .fin k ∧
        (buildDoc u receivedAt (normalizeWs now body w)).findingsCount = .fin k) ∧
      (∃ k : ℕ, (normalizeFlat now w).findingsCount = .fin k ∧
        (buildDoc u receivedAt (normalizeFlat now w)).findingsCount = .fin k)) ∧
    (∀ n, getField w "findingsCount" = .num n →
      ((normalizeWs now body w).findingsCount = n ∧
        (normalizeFlat now w).findingsCount = n) ∧
      (jsNumTruthy n = true →
        (buildDoc u receivedAt (normalizeWs now body w)).findingsCount = n ∧
        (buildDoc u receivedAt (normalizeFlat now w)).findingsCount = n) ∧
      (jsNumTruthy n = false →
        (buildDoc u receivedAt (normalizeWs now body w)).findingsCount = .fin 0 ∧
        (buildDoc u receivedAt (normalizeFlat now w)).findingsCount = .fin 0)) := by
  constructor
  · intro h
    constructor
    · refine ⟨(extractFindings w).length, extractFindingsCount_nonnum w h, ?_⟩
      show numOrZero (extractFindingsCount w) = _
      rw [extractFindingsCount_nonnum w h, numOrZero_fin]
    · refine ⟨(extractFindings w).length, extractFindingsCount_nonnum w h, ?_⟩
      show numOrZero (extractFindingsCount w) = _
      rw [extractFindingsCount_nonnum w h, numOrZero_fin]
  · intro n h
    have hn : extractFindingsCount w = n := extractFindingsCount_num w n h
    refine ⟨⟨hn, hn⟩, fun ht => ⟨?_, ?_⟩, fun hf => ⟨?_, ?_⟩⟩
    all_goals show numOrZero (extractFindingsCount w) = _
    all_goals rw [hn]
    all_goals simp [numOrZero, *]

/-- Witness for the amended C3 at a body without findingsCount, at the body
carrying -1 (a truthy number, persisted unchanged) and at a body carrying 0
(a falsy number, persisted as 0). -/
theorem C3_amended_thm_witness :
    ((∃ k : ℕ, (normalizeWs "T" (.obj .nil) bodyFlatTwoFindings).findingsCount = .fin k ∧
        (buildDoc (.str "alice") "R"
          (normalizeWs "T" (.obj .nil) bodyFlatTwoFindings)).findingsCount = .fin k) ∧
      (∃ k : ℕ, (normalizeFlat "T" bodyFlatTwoFindings).findingsCount = .fin k ∧
        (buildDoc (.str "alice") "R"
          (normalizeFlat "T" bodyFlatTwoFindings)).findingsCount = .fin k)) ∧
    (normalizeFlat "T" bodyNegCount).findingsCount = .fin (-1) ∧
    (buildDoc (.str "alice") "R" (normalizeFlat "T" bodyNegCount)).findingsCount = .fin (-1) ∧
    (buildDoc (.str "alice") "R" (normalizeFlat "T" bodyZeroCount)).findingsCount = .fin 0 :=
  ⟨(C3_amended_thm "T" "R" (.str "alice") (.obj .nil) bodyFlatTwoFindings).1 rfl,
   (((C3_amended_thm "T" "R" (.str "alice") (.obj .nil) bodyNegCount).2
      (.fin (-1)) rfl).1).2,
   ((((C3_amended_thm "T" "R" (.str "alice") (.obj .nil) bodyNegCount).2
      (.fin (-1)) rfl).2).1 (by decide)).2,
   ((((C3_amended_thm "T" "R" (.str "alice") (.obj .nil) bodyZeroCount).2
      (.fin 0) rfl).2).2 (by decide)).2⟩

theorem docs_findingsCount_fin (u : JSVal) (receivedAt : String) (l : List Workspace) :
    ∀ d ∈ l.map (buildDoc u receivedAt), ∃ q : ℚ, d.findingsCount = JSNum.fin q := by
  intro d hd
  obtain ⟨w, _, rfl⟩ := List.mem_map.mp hd
  exact numOrZero_exists_fin w.findingsCount

theorem fin_toQ_numOrZero (n : JSNum) : JSNum.fin ((numOrZero n).toQ) = numOrZero n := by
  cases n with
  | nan => rfl
  | fin q => rw [numOrZero_fin]; rfl

theorem map_fin_toQ (u : JSVal) (receivedAt : String) (l : List Workspace) :
    ((l.map (buildDoc u receivedAt)).map (fun d => d.findingsCount.toQ)).map JSNum.fin
      = (l.map (buildDoc u receivedAt)).map Doc.findingsCount := by
  induction l with
  | nil => rfl
  | cons w l ih =>
    simp only [List.map_cons, List.cons.injEq]
    exact ⟨fin_toQ_numOrZero w.findingsCount, ih⟩

/-- Refutation of C1: a request with a non-empty bearer token whose identity
resolution fails (the service answered non-success) is answered 500, not
401; no document is persisted. -/
theorem C1_counterexample :
    (findingsHandler (.fail 401 "") "T" "R" (fun i => toString i)
      { authorization := .str "Bearer tok", body := .obj .nil }).status ≠ 401 ∧
    (findingsHandler (.fail 401 "") "T" "R" (fun i => toString i)
      { authorization := .str "Bearer tok", body := .obj .nil }).status = 500 ∧
    (findingsHandler (.fail 401 "") "T" "R" (fun i => toString i)
      { authorization := .str "Bearer tok", body := .obj .nil }).insertedDocs = [] :=
  ⟨by decide, by decide, rfl⟩

/-- C1 amended: for every request with a non-empty bearer token whose
identity resolution fails, the handler responds 500 (the thrown auth error is
caught by the generic catch) and no document is persisted. -/
theorem C1_amended_thm (idResp : IdServiceResponse) (now receivedAt : String)
    (assignId : Nat → String) (req : Request) (msg : String)
    (htok : tokenOf req ≠ "") (hg : githubUsernameFromToken idResp = .error msg) :
    (findingsHandler idResp now receivedAt assignId req).status = 500 ∧
    (findingsHandler idResp now receivedAt assignId req).storageCalled = false ∧
    (findingsHandler idResp now receivedAt assignId req).insertedDocs = [] := by
  rw [findingsHandler_authFail idResp now receivedAt assignId req msg htok hg]
  exact ⟨rfl, rfl, rfl⟩

/-- Witness for the amended C1 at a concrete 401 answer from the identity
service. -/
theorem C1_amended_thm_witness :
    (findingsHandler (.fail 401 "bad credentials") "T" "R" (fun i => toString i)
      { authorization := .str "Bearer tok", body := .obj .nil }).status = 500 ∧
    (findingsHandler (.fail 401 "bad credentials") "T" "R" (fun i => toString i)
      { authorization := .str "Bearer tok", body := .obj .nil }).storageCalled = false ∧
    (findingsHandler (.fail 401 "bad credentials") "T" "R" (fun i => toString i)
      { authorization := .str "Bearer tok", body := .obj .nil }).insertedDocs = [] :=
  C1_amended_thm (.fail 401 "bad credentials") "T" "R" (fun i => toString i)
    { authorization := .str "Bearer tok", body := .obj .nil }
    (jsTrim ("GitHub auth failed: HTTP " ++ toString 401 ++ " " ++ "bad credentials"))
    (by decide) rfl

/-- C8: a request whose authorization header is absent, or does not start
with "Bearer ", or whose token is empty after trimming, is answered 401 with
no identity-service call, no normalization and no storage call. -/
theorem C8_thm (idResp : IdServiceResponse) (now receivedAt : String)
    (assignId : Nat → String) (req : Request)
    (h : req.authorization = .undefined ∨
         jsStartsWith (jsToString (jsOr req.authorization (.str ""))) "Bearer " = false ∨
         jsTrim (jsSlice (jsToString (jsOr req.authorization (.str ""))) 7) = "") :
    (findingsHandler idResp now receivedAt assignId req).status = 401 ∧
    (findingsHandler idResp now receivedAt assignId req).identityCalled = false ∧
    (findingsHandler idResp now receivedAt assignId req).normalizeCalled = false ∧
    (findingsHandler idResp now receivedAt assignId req).storageCalled = false ∧
    (findingsHandler idResp now receivedAt assignId req).insertedDocs = [] := by
  have htok : tokenOf req = "" := by
    rcases h with h | h | h
    · have h2 : jsStartsWith (jsToString (jsOr req.authorization (.str ""))) "Bearer "
          = false := by
        rw [h]; decide
      simp only [tokenOf]
      rw [h2]
      simp
    · simp only [tokenOf]
      rw [h]
      simp
    · simp only [tokenOf]
      by_cases hs : jsStartsWith (jsToString (jsOr req.authorization (.str ""))) "Bearer " <;>
        simp [hs, h]
  rw [findingsHandler_noToken idResp now receivedAt assignId req htok]
  exact ⟨rfl, rfl, rfl, rfl, rfl⟩

/-- Witness for C8 at a bearer header whose token is all whitespace. -/
theorem C8_thm_witness :
    (findingsHandler (.fail 0 "") "T" "R" (fun i => toString i)
      { authorization := .str "Bearer    ", body := .obj .nil }).status = 401 ∧
    (findingsHandler (.fail 0 "") "T" "R" (fun i => toString i)
      { authorization := .str "Bearer    ", body := .obj .nil }).identityCalled = false ∧
    (findingsHandler (.fail 0 "") "T" "R" (fun i => toString i)
      { authorization := .str "Bearer    ", body := .obj .nil }).normalizeCalled = false ∧
    (findingsHandler (.fail 0 "") "T" "R" (fun i => toString i)
      { authorization := .str "Bearer    ", body := .obj .nil }).storageCalled = false ∧
    (findingsHandler (.fail 0 "") "T" "R" (fun i => toString i)
      { authorization := .str "Bearer    ", body := .obj .nil }).insertedDocs = [] :=
  C8_thm (.fail 0 "") "T" "R" (fun i => toString i)
    { authorization := .str "Bearer    ", body := .obj .nil }
    (Or.inr (Or.inr (by decide)))

/-- C9: an authenticated request whose normalized sequence is empty is
answered 400 with no storage call, and storage is reached only when the
normalized sequence is non-empty. -/
theorem C9_thm (idResp : IdServiceResponse) (now receivedAt : String)
    (assignId : Nat → String) (req : Request) (u : JSVal)
    (htok : tokenOf req ≠ "") (hg : githubUsernameFromToken idResp = .ok u) :
    ((normalizeToWorkspaces now (jsOr req.body (.obj .nil))).length = 0 →
      (findingsHandler idResp now receivedAt assignId req).status = 400 ∧
      (findingsHandler idResp now receivedAt assignId req).storageCalled = false ∧
      (findingsHandler idResp now receivedAt assignId req).insertedDocs = []) ∧
    ((findingsHandler idResp now receivedAt assignId req).storageCalled = true →
      (normalizeToWorkspaces now (jsOr req.body (.obj .nil))).length ≠ 0) := by
  constructor
  · intro hlen
    rw [findingsHandler_emptyBatch idResp now receivedAt assignId req u htok hg hlen]
    exact ⟨rfl, rfl, rfl⟩
  · intro hst hlen
    rw [findingsHandler_emptyBatch idResp now receivedAt assignId req u htok hg hlen] at hst
    simp at hst

/-- Witness for C9 at the empty-workspaces body with a valid token. -/
theorem C9_thm_witness :
    (findingsHandler (.respond loginAlice) "T" "R" (fun i => toString i)
      { authorization := .str "Bearer tok", body := bodyEmptyWs }).status = 400 ∧
    (findingsHandler (.respond loginAlice) "T" "R" (fun i => toString i)
      { authorization := .str "Bearer tok", body := bodyEmptyWs }).storageCalled = false ∧
    (findingsHandler (.respond loginAlice) "T" "R" (fun i => toString i)
      { authorization := .str "Bearer tok", body := bodyEmptyWs }).insertedDocs = [] :=
  (C9_thm (.respond loginAlice) "T" "R" (fun i => toString i)
    { authorization := .str "Bearer tok", body := bodyEmptyWs } (.str "alice")
    (by decide) rfl).1 (by decide)

/-- C7: a successful request reports 200 with the resolved username, one
inserted document per normalized record, totalFindings equal to the sum of
the findingsCount values of the persisted documents, and the storage-assigned
identifiers in insertion order. -/
theorem C7_thm (idResp : IdServiceResponse) (now receivedAt : String)
    (assignId : Nat → String) (req : Request) (u : JSVal)
    (htok : tokenOf req ≠ "") (hg : githubUsernameFromToken idResp = .ok u)
    (hlen : (normalizeToWorkspaces now (jsOr req.body (.obj .nil))).length ≠ 0) :
    (findingsHandler idResp now receivedAt assignId req).status = 200 ∧
    (findingsHandler idResp now receivedAt assignId req).ok = true ∧
    (findingsHandler idResp now receivedAt assignId req).username = some u ∧
    (findingsHandler idResp now receivedAt assignId req).batchesInserted
      = some (normalizeToWorkspaces now (jsOr req.body (.obj .nil))).length ∧
    (∃ qs : List ℚ,
      (findingsHandler idResp now receivedAt assignId req).insertedDocs.map Doc.findingsCount
        = qs.map JSNum.fin ∧
      (findingsHandler idResp now receivedAt assignId req).totalFindings
        = some (.fin qs.sum)) ∧
    (findingsHandler idResp now receivedAt assignId req).batchIds
      = some ((List.range
          (findingsHandler idResp now receivedAt assignId req).insertedDocs.length).map
            assignId) ∧
    (findingsHandler idResp now receivedAt assignId req).insertedDocs.length
      = (normalizeToWorkspaces now (jsOr req.body (.obj .nil))).length := by
  rw [findingsHandler_success idResp now receivedAt assignId req u htok hg hlen]
  refine ⟨rfl, rfl, rfl, by simp, ?_, rfl, by simp⟩
  refine ⟨((normalizeToWorkspaces now (jsOr req.body (.obj .nil))).map
      (buildDoc u receivedAt)).map (fun d => d.findingsCount.toQ), ?_, ?_⟩
  · exact (map_fin_toQ u receivedAt _).symm
  · rw [foldl_jsAdd_fin _ 0 (docs_findingsCount_fin u receivedAt _), zero_add]

/-- Witness for C7 at scenario A: a flat body with two findings and a valid
token resolving to alice. -/
theorem C7_thm_witness :
    (findingsHandler (.respond loginAlice) "T" "R" (fun i => toString i)
      { authorization := .str "Bearer tok", body := bodyFlatTwoFindings }).status = 200 ∧
    (findingsHandler (.respond loginAlice) "T" "R" (fun i => toString i)
      { authorization := .str "Bearer tok", body := bodyFlatTwoFindings }).ok = true ∧
    (findingsHandler (.respond loginAlice) "T" "R" (fun i => toString i)
      { authorization := .str "Bearer tok", body := bodyFlatTwoFindings }).username
        = some (.str "alice") ∧
    (findingsHandler (.respond loginAlice) "T" "R" (fun i => toString i)
      { authorization := .str "Bearer tok", body := bodyFlatTwoFindings }).batchesInserted
      = some (normalizeToWorkspaces "T"
          (jsOr bodyFlatTwoFindings (.obj .nil))).length ∧
    (∃ qs : List ℚ,
      (findingsHandler (.respond loginAlice) "T" "R" (fun i => toString i)
        { authorization := .str "Bearer tok",
          body := bodyFlatTwoFindings }).insertedDocs.map Doc.findingsCount
        = qs.map JSNum.fin ∧
      (findingsHandler (.respond loginAlice) "T" "R" (fun i => toString i)
        { authorization := .str "Bearer tok", body := bodyFlatTwoFindings }).totalFindings
        = some (.fin qs.sum)) ∧
    (findingsHandler (.respond loginAlice) "T" "R" (fun i => toString i)
      { authorization := .str "Bearer tok", body := bodyFlatTwoFindings }).batchIds
      = some ((List.range
          (findingsHandler (.respond loginAlice) "T" "R" (fun i => toString i)
            { authorization := .str "Bearer tok",
              body := bodyFlatTwoFindings }).insertedDocs.length).map (fun i => toString i)) ∧
    (findingsHandler (.respond loginAlice) "T" "R" (fun i => toString i)
      { authorization := .str "Bearer tok", body := bodyFlatTwoFindings }).insertedDocs.length
      = (normalizeToWorkspaces "T" (jsOr bodyFlatTwoFindings (.obj .nil))).length :=
  C7_thm (.respond loginAlice) "T" "R" (fun i => toString i)
    { authorization := .str "Bearer tok", body := bodyFlatTwoFindings } (.str "alice")
    (by decide) rfl (by decide)
